import Mathlib

/-!
# Verification of the clawish signature-authentication core

A shallow embedding, in Lean 4, of the signature-based authentication
protocol and identity subsystem of the clawish repository:

* `src/unnamed/part_000` (`src/utils/crypto.ts`): `verifySignature`,
  `signMessage`, `generateKeyPair`, `buildCanonicalString`;
* `src/unnamed/part_001` (`src/middleware/auth.ts`): `authMiddleware`,
  `optionalAuth`, `requireAuth`;
* `src/unnamed/part_004` (`src/handlers/clawfiles.ts`): registration and the
  key-rotation endpoint;
* `src/src/handlers/plaza.ts`: the tier-0 posting rate limit.

The Ed25519 primitive itself lives in the external `@noble/ed25519` package,
not in this repository, so the embedding is parameterised by an abstract
`EdScheme` (getPublicKey / sign / verify); likewise the SHA-256 digest
(`crypto.subtle.digest`) is passed in as an abstract hex-digest function
where the middleware needs it.  Everything the repository's own code does —
base64 via `atob`/`btoa`, the `"key:algorithm"` parsing, header handling,
skew check, canonical-string construction, identity resolution, rate
limiting, registration — is embedded concretely and executably.

Bytes are modelled as `Nat` values (< 256 where it matters); JavaScript
strings as Lean `String`.
-/

namespace Clawish

/-! ## Base64 (`btoa` / `atob`)

The crypto helpers encode byte arrays with `btoa(String.fromCharCode(...))`
and decode with `Uint8Array.from(atob(s), c => c.charCodeAt(0))`.  We model
standard base64 over `List Nat` byte lists; `atob` returns `none` where the
JavaScript function would throw (an invalid character or block shape). -/

def b64Chars : List Char :=
  "ABCDEFGHIJKLMNOPQRSTUVWXYZabcdefghijklmnopqrstuvwxyz0123456789+/".data

/-- The base64 digit character for a 6-bit value. -/
def b64c (i : Nat) : Char := b64Chars.getD i 'A'

/-- The 6-bit value of a base64 digit character, `none` for a non-digit. -/
def b64v (c : Char) : Option Nat := List.findIdx? (fun d => d = c) b64Chars

/-- base64-encode a byte list (the chunk-of-three recursion of RFC 4648). -/
def btoaChars : List Nat → List Char
  | [] => []
  | [a] => [b64c (a / 4), b64c (a % 4 * 16), '=', '=']
  | [a, b] => [b64c (a / 4), b64c (a % 4 * 16 + b / 16), b64c (b % 16 * 4), '=']
  | a :: b :: c :: rest =>
      b64c (a / 4) :: b64c (a % 4 * 16 + b / 16) :: b64c (b % 16 * 4 + c / 64) ::
        b64c (c % 64) :: btoaChars rest

/-- base64-decode; `none` models the `InvalidCharacterError` throw of `atob`. -/
def atobChars : List Char → Option (List Nat)
  | [] => some []
  | w :: x :: y :: z :: rest =>
      match b64v w, b64v x with
      | some vw, some vx =>
          if y = '=' then
            if z = '=' ∧ rest = [] then some [vw * 4 + vx / 16] else none
          else
            match b64v y with
            | some vy =>
                if z = '=' then
                  if rest = [] then some [vw * 4 + vx / 16, vx % 16 * 16 + vy / 4]
                  else none
                else
                  match b64v z, atobChars rest with
                  | some vz, some bs =>
                      some ((vw * 4 + vx / 16) :: (vx % 16 * 16 + vy / 4) ::
                        (vy % 4 * 64 + vz) :: bs)
                  | _, _ => none
            | none => none
      | _, _ => none
  | _ => none

/-- JavaScript `btoa(String.fromCharCode(...bytes))`. -/
def btoa (bs : List Nat) : String := String.mk (btoaChars bs)

/-- JavaScript `Uint8Array.from(atob(s), c => c.charCodeAt(0))`;
`none` where `atob` throws. -/
def atob (s : String) : Option (List Nat) := atobChars s.data

theorem b64v_b64c : ∀ i, i < 64 → b64v (b64c i) = some i := by decide

theorem b64c_ne_eq_ne_colon (i : Nat) : b64c i ≠ '=' ∧ b64c i ≠ ':' := by
  by_cases h : i < 64
  · revert h; revert i; decide
  · have : b64c i = 'A' := by
      unfold b64c
      exact List.getD_eq_default _ _ (by simp at h; simpa [b64Chars] using h)
    rw [this]; decide

/-- Decoding inverts encoding on genuine byte lists. -/
theorem atobChars_btoaChars (bs : List Nat) (h : ∀ b ∈ bs, b < 256) :
    atobChars (btoaChars bs) = some bs := by
  induction bs using btoaChars.induct with
  | case1 => rfl
  | case2 a =>
      have ha : a < 256 := h a (by simp)
      rw [btoaChars, atobChars]
      rw [b64v_b64c _ (by omega), b64v_b64c _ (by omega)]
      simp only [Option.some.injEq, List.cons.injEq, and_true, reduceIte]
      simp
      all_goals omega
  | case3 a b =>
      have ha : a < 256 := h a (by simp)
      have hb : b < 256 := h b (by simp)
      rw [btoaChars, atobChars]
      rw [b64v_b64c _ (by omega), b64v_b64c _ (by omega)]
      dsimp only
      rw [if_neg (b64c_ne_eq_ne_colon _).1]
      rw [b64v_b64c _ (by omega)]
      simp
      all_goals omega
  | case4 a b c rest ih =>
      have ha : a < 256 := h a (by simp)
      have hb : b < 256 := h b (by simp)
      have hc : c < 256 := h c (by simp)
      have hrest : ∀ x ∈ rest, x < 256 := fun x hx => h x (by simp [hx])
      rw [btoaChars, atobChars]
      rw [b64v_b64c _ (by omega), b64v_b64c _ (by omega)]
      dsimp only
      rw [if_neg (b64c_ne_eq_ne_colon _).1]
      rw [b64v_b64c _ (by omega)]
      dsimp only
      rw [if_neg (b64c_ne_eq_ne_colon _).1]
      rw [b64v_b64c _ (by omega), ih hrest]
      simp
      all_goals omega

theorem atob_btoa (bs : List Nat) (h : ∀ b ∈ bs, b < 256) :
    atob (btoa bs) = some bs := by
  unfold atob btoa
  exact atobChars_btoaChars bs h

/-- Every character `btoa` emits is a base64 digit or padding, never a colon. -/
theorem btoaChars_ne_colon (bs : List Nat) : ':' ∉ btoaChars bs := by
  induction bs using btoaChars.induct with
  | case1 => simp [btoaChars]
  | case2 a =>
      simp only [btoaChars, List.mem_cons, List.not_mem_nil, or_false]
      push_neg
      refine ⟨?_, ?_, ?_, ?_⟩ <;>
        first
          | exact fun hx => (b64c_ne_eq_ne_colon _).2 hx.symm
          | decide
  | case3 a b =>
      simp only [btoaChars, List.mem_cons, List.not_mem_nil, or_false]
      push_neg
      refine ⟨?_, ?_, ?_, ?_⟩ <;>
        first
          | exact fun hx => (b64c_ne_eq_ne_colon _).2 hx.symm
          | decide
  | case4 a b c rest ih =>
      simp only [btoaChars, List.mem_cons]
      push_neg
      refine ⟨?_, ?_, ?_, ?_, ih⟩ <;>
        exact fun hx => (b64c_ne_eq_ne_colon _).2 hx.symm

/-! ## UTF-8 encoding (`new TextEncoder().encode(...)`) -/

/-- The UTF-8 bytes of one character. -/
def utf8EncodeCharNat (c : Char) : List Nat :=
  let v := c.toNat
  if v < 128 then [v]
  else if v < 2048 then [192 + v / 64, 128 + v % 64]
  else if v < 65536 then [224 + v / 4096, 128 + v / 64 % 64, 128 + v % 64]
  else [240 + v / 262144, 128 + v / 4096 % 64, 128 + v / 64 % 64, 128 + v % 64]

/-- `new TextEncoder().encode(s)` as a byte list. -/
def utf8Bytes (s : String) : List Nat := s.data.flatMap utf8EncodeCharNat

theorem char_toNat_lt (c : Char) : c.toNat < 1114112 := by
  have h := c.valid
  have e : c.toNat = c.val.toNat := rfl
  rcases h with h | ⟨_, h2⟩ <;> omega

theorem utf8EncodeCharNat_lt (c : Char) : ∀ b ∈ utf8EncodeCharNat c, b < 256 := by
  have hv := char_toNat_lt c
  intro b hb
  simp only [utf8EncodeCharNat] at hb
  by_cases h1 : c.toNat < 128
  · simp [h1] at hb; omega
  · by_cases h2 : c.toNat < 2048
    · simp [h1, h2] at hb; rcases hb with hb | hb <;> omega
    · by_cases h3 : c.toNat < 65536
      · simp [h1, h2, h3] at hb; rcases hb with hb | hb | hb <;> omega
      · simp [h1, h2, h3] at hb; rcases hb with hb | hb | hb | hb <;> omega

theorem utf8Bytes_lt (s : String) : ∀ b ∈ utf8Bytes s, b < 256 := by
  intro b hb
  unfold utf8Bytes at hb
  rw [List.mem_flatMap] at hb
  obtain ⟨c, _, hbc⟩ := hb
  exact utf8EncodeCharNat_lt c b hbc

/-! ## The abstract Ed25519 primitive

`src/utils/crypto.ts` calls `ed.getPublicKey`, `ed.sign`, `ed.verify` from
the external `@noble/ed25519` package, which is not part of this repository.
The embedding is parameterised by such a scheme; `Correct` is the standard
signature-correctness property the spec's round-trip claim relies on, and
`ByteBounded` records that the primitive maps `Uint8Array`s to
`Uint8Array`s (all byte values below 256). -/

structure EdScheme where
  getPublicKey : List Nat → List Nat
  sign : List Nat → List Nat → List Nat
  verify : List Nat → List Nat → List Nat → Bool

def EdScheme.Correct (S : EdScheme) : Prop :=
  ∀ message priv, S.verify (S.sign message priv) message (S.getPublicKey priv) = true

def EdScheme.ByteBounded (S : EdScheme) : Prop :=
  (∀ priv, (∀ b ∈ priv, b < 256) → ∀ b ∈ S.getPublicKey priv, b < 256) ∧
  (∀ message priv, (∀ b ∈ message, b < 256) → (∀ b ∈ priv, b < 256) →
    ∀ b ∈ S.sign message priv, b < 256)

/-! ## JavaScript `String.prototype.split` with a one-character separator -/

/-- `s.split(sep)` for a single-character separator: always a non-empty list
of the separator-free segments. -/
def splitOnChar (sep : Char) : List Char → List (List Char)
  | [] => [[]]
  | c :: rest =>
      match splitOnChar sep rest with
      | [] => [[c]]
      | h :: t => if c = sep then [] :: h :: t else (c :: h) :: t

theorem splitOnChar_ne_nil (sep : Char) (l : List Char) : splitOnChar sep l ≠ [] := by
  cases l with
  | nil => simp [splitOnChar]
  | cons c rest =>
      simp only [splitOnChar]
      cases splitOnChar sep rest with
      | nil => simp
      | cons h t => by_cases hc : c = sep <;> simp [hc]

theorem splitOnChar_append_sep (sep : Char) (l r : List Char) (h : sep ∉ l) :
    splitOnChar sep (l ++ sep :: r) = l :: splitOnChar sep r := by
  induction l with
  | nil =>
      rw [List.nil_append, splitOnChar]
      cases hr : splitOnChar sep r with
      | nil => exact absurd hr (splitOnChar_ne_nil sep r)
      | cons a t => simp
  | cons c l ih =>
      have hc : c ≠ sep := fun he => h (he ▸ List.mem_cons_self c l)
      have hl : sep ∉ l := fun hm => h (List.mem_cons_of_mem c hm)
      rw [List.cons_append, splitOnChar, ih hl]
      simp [hc]

/-! ## `src/utils/crypto.ts` (src/unnamed/part_000) -/

/-- `verifySignature(publicKey, message, signature)`, part_000 lines 10-35.
The whole body runs inside `try { ... } catch { return false }`, so the
function is total and every parse/decode failure (wrong or missing
`:algorithm` tag, invalid base64 in the key or the signature) yields
`false`.  The embedding mirrors `publicKey.split(':')` followed by
destructuring into `[keyBase64, algo]`: extra `:`-segments beyond the
second are ignored, a missing second segment fails the `algo !== 'ed25519'`
test. -/
def verifySignature (S : EdScheme) (publicKey message signature : String) : Bool :=
  match splitOnChar ':' publicKey.data with
  | keyBase64 :: algo :: _ =>
      if String.mk algo = "ed25519" then
        match atob (String.mk keyBase64), atob signature with
        | some publicKeyBytes, some signatureBytes =>
            S.verify signatureBytes (utf8Bytes message) publicKeyBytes
        | _, _ => false
      else false
  | _ => false

/-- `signMessage(privateKey, message)`, part_000 lines 43-51: decode the
base64 private key (throwing — `none` — on bad base64; there is no
`try`/`catch` here), sign the UTF-8 message bytes, re-encode base64. -/
def signMessage (S : EdScheme) (privateKey message : String) : Option String :=
  (atob privateKey).map fun privateKeyBytes =>
    btoa (S.sign (utf8Bytes message) privateKeyBytes)

/-- `generateKeyPair()`, part_000 lines 57-68.  The secure random source
`ed.utils.randomPrivateKey()` is modelled by passing the drawn private-key
bytes in; both keys are returned base64-encoded, with **no** `:ed25519`
algorithm tag appended to the public key. -/
def generateKeyPair (S : EdScheme) (randomPrivateKey : List Nat) :
    String × String :=
  (btoa (S.getPublicKey randomPrivateKey), btoa randomPrivateKey)

/-- `buildCanonicalString(method, path, timestamp, body)`, part_000 lines
78-91.  The function is not `async` and never awaits the
`crypto.subtle.digest('SHA-256', ...).then(...)` promise it assigns to
`bodyHash`; interpolating that pending `Promise` object into the template
literal stringifies it as `"[object Promise]"`, whatever the body. -/
def buildCanonicalString (method path timestamp body : String) : String :=
  method ++ " " ++ path ++ "\n" ++ timestamp ++ "\n" ++ "[object Promise]"

/-- The hex rendering of a digest byte used on the server side
(part_001 lines 54-56): `b.toString(16).padStart(2, '0')`. -/
def hexByte (b : Nat) : List Char :=
  ["0123456789abcdef".data.getD (b / 16 % 16) '0',
   "0123456789abcdef".data.getD (b % 16) '0']

/-- `Array.from(new Uint8Array(hash)).map(b => ...).join('')`. -/
def hexOfBytes (bs : List Nat) : String := String.mk (bs.flatMap hexByte)

/-! ## JavaScript string-search helpers for `src/middleware/auth.ts`

The middleware derives the signed path with
`c.req.url.replace(c.req.url.split('/api')[0], '')`: take everything before
the first occurrence of `"/api"` in the full request URL and delete its
first occurrence (which is the leading one) from the URL. -/

/-- The first index at which `pat` occurs in `l` (`String.prototype.indexOf`). -/
def listIndexOf (pat : List Char) : List Char → Option Nat
  | [] => if pat = [] then some 0 else none
  | c :: rest =>
      if pat.isPrefixOf (c :: rest) then some 0
      else (listIndexOf pat rest).map (· + 1)

/-- `s.split(pat)[0]` for a non-empty `pat`: the part before the first
occurrence, or all of `s` when `pat` does not occur. -/
def beforeFirst (pat l : List Char) : List Char :=
  match listIndexOf pat l with
  | some i => l.take i
  | none => l

/-- `s.replace(search, '')` for literal `search`: delete the first
occurrence, do nothing when there is none (replacing the empty string
inserts nothing at index 0, leaving `s` unchanged). -/
def jsReplaceFirst (search l : List Char) : List Char :=
  match listIndexOf search l with
  | some i => l.take i ++ l.drop (i + search.length)
  | none => l

/-- `c.req.url.replace(c.req.url.split('/api')[0], '')`, part_001 line 51:
the request URL from its first `"/api"` on — including any query string —
or `""` when the URL has no `"/api"`. -/
def extractPath (url : String) : String :=
  String.mk (jsReplaceFirst (beforeFirst "/api".data url.data) url.data)

/-- The canonical string the middleware rebuilds (part_001 lines 49-58):
`` `${method} ${path}\n${timestamp}\n${bodyHashHex}` `` where `path` is
`extractPath url` and `bodyHashHex` is the lowercase-hex SHA-256 of the raw
body text; the digest primitive (`crypto.subtle.digest`) is outside the
repository and passed in as `hashHex`. -/
def canonicalOf (hashHex : String → String) (method url timestamp body : String) :
    String :=
  method ++ " " ++ extractPath url ++ "\n" ++ timestamp ++ "\n" ++ hashHex body

/-! ## `src/middleware/auth.ts` (src/unnamed/part_001) -/

/-- The identity snapshot the middleware selects:
`SELECT mention_name, display_name, verification_tier, status FROM clawfiles
WHERE public_key = ?` (part_001 lines 74-76). -/
structure Identity where
  mention_name : String
  display_name : String
  verification_tier : Nat
  status : String
deriving DecidableEq, Repr

/-- The `AuthContext` the middleware attaches on success (part_001 lines
4-12 and 97). -/
structure AuthContext where
  publicKey : String
  identity : Identity
deriving DecidableEq, Repr

/-- What one run of the middleware does with the request: a structured JSON
error `{error: {code, message}}` with an HTTP status, or `next()` with the
optional auth context that was attached. -/
inductive MwResult where
  | reject (status : Nat) (code message : String)
  | proceed (auth : Option AuthContext)
deriving DecidableEq, Repr

/-- The error code of a middleware outcome, `none` when it proceeded. -/
def MwResult.code : MwResult → Option String
  | .reject _ c _ => some c
  | .proceed _ => none

/-- `authMiddleware(options)`, part_001 lines 15-101, one request.

* `required` — `options?.required ?? true`;
* `db` — the `clawfiles` lookup keyed by the exact `X-Public-Key` header;
* `now` — `Math.floor(Date.now() / 1000)`;
* `parseTime` — `ts ↦ Math.floor(new Date(ts).getTime() / 1000)` (`Date`
  parsing is a platform primitive, passed in);
* `publicKey`, `signature`, `timestamp` — the three auth headers, `none`
  when absent; a present-but-empty header is falsy in
  `if (!publicKey || !signature || !timestamp)` exactly like a missing one.

Steps, in source order: missing-header check, skew check, canonical-string
rebuild + signature verification, identity lookup, status check, attach
context. -/
def authMiddleware (S : EdScheme) (hashHex : String → String) (required : Bool)
    (db : String → Option Identity) (now : Int) (parseTime : String → Int)
    (method url body : String)
    (publicKey signature timestamp : Option String) : MwResult :=
  match publicKey, signature, timestamp with
  | some pk, some sg, some ts =>
      if pk = "" ∨ sg = "" ∨ ts = "" then
        if required then
          .reject 401 "missing_auth"
            "X-Public-Key, X-Signature, and X-Timestamp headers required"
        else .proceed none
      else
        let skew := (now - parseTime ts).natAbs
        if 60 < skew then
          .reject 401 "timestamp_skew"
            ("Timestamp skew too large (" ++ toString skew ++ "s). Check system clock.")
        else
          let canonicalString := canonicalOf hashHex method url ts body
          if verifySignature S pk canonicalString sg then
            match db pk with
            | none => .reject 401 "unknown_identity" "Public key not registered"
            | some identity =>
                if identity.status ≠ "active" then
                  .reject 401 "inactive_identity" ("Identity status: " ++ identity.status)
                else .proceed (some { publicKey := pk, identity := identity })
          else .reject 401 "invalid_signature" "Signature verification failed"
  | _, _, _ =>
      if required then
        .reject 401 "missing_auth"
          "X-Public-Key, X-Signature, and X-Timestamp headers required"
      else .proceed none

/-- `optionalAuth = authMiddleware({ required: false })`, part_001 line 104. -/
def optionalAuth (S : EdScheme) (hashHex : String → String)
    (db : String → Option Identity) (now : Int) (parseTime : String → Int)
    (method url body : String) (publicKey signature timestamp : Option String) :
    MwResult :=
  authMiddleware S hashHex false db now parseTime method url body
    publicKey signature timestamp

/-- `requireAuth = authMiddleware({ required: true })`, part_001 line 107. -/
def requireAuth (S : EdScheme) (hashHex : String → String)
    (db : String → Option Identity) (now : Int) (parseTime : String → Int)
    (method url body : String) (publicKey signature timestamp : Option String) :
    MwResult :=
  authMiddleware S hashHex true db now parseTime method url body
    publicKey signature timestamp

/-! ## `src/handlers/plaza.ts` — POST / (create post) -/

/-- The columns of a `plaza_messages` row that the POST handler's own logic
reads back (`author_id` and `date(created_at)` in the rate-limit count,
`id` in the reply-parent lookup); `content` is carried along as inserted. -/
structure PlazaPost where
  id : String
  author_id : String
  content : String
  created_at : String
deriving DecidableEq, Repr

/-- The UTC calendar date of an ISO-8601 timestamp:
`new Date().toISOString().split('T')[0]` on the JS side, and SQLite
`date(created_at)` on rows whose `created_at` was written by
`new Date().toISOString()` — both the part before the `'T'`. -/
def dayOf (s : String) : String := String.mk (beforeFirst ['T'] s.data)

/-- `SELECT COUNT(*) FROM plaza_messages WHERE author_id = ? AND
date(created_at) = ?` (plaza.ts lines 94-97). -/
def postCountToday (store : List PlazaPost) (author today : String) : Nat :=
  (store.filter fun p => p.author_id = author ∧ dayOf p.created_at = today).length

/-- Outcome of `POST /plaza`: a structured error with its HTTP status, or
the created row together with the store after the insert. -/
inductive PlazaResult where
  | error (status : Nat) (code message : String)
  | created (post : PlazaPost) (store : List PlazaPost)
deriving DecidableEq, Repr

/-- `app.post('/', requireAuth, ...)`, plaza.ts lines 75-157.

* `tier` — `auth.identity?.verification_tier`;
* `content`/`reply_to` — request-body fields, `none` when absent (and JS
  treats an empty string the same as absent in `if (!content)` /
  `if (reply_to)`);
* `newId`/`now` — `crypto.randomUUID()...` and `new Date().toISOString()`,
  drawn by the platform and passed in.

Source order: content check; tier-0 rate limit against today's UTC calendar
date; reply-parent existence; insert.  (The `ledger_entries` insert and the
stored `content_type`/`visibility`/`signature` columns play no part in any
behaviour verified here and are not modelled.) -/
def plazaPost (store : List PlazaPost) (tier : Nat) (publicKey : String)
    (content : Option String) (reply_to : Option String)
    (newId now : String) : PlazaResult :=
  if content = none ∨ content = some "" ∨ 5000 < (content.getD "").length then
    .error 400 "bad_request" "Content required, max 5000 characters"
  else if tier = 0 ∧ 1 ≤ postCountToday store publicKey (dayOf now) then
    .error 429 "rate_limited"
      "Tier 0 users limited to 1 post per day. Get parent-vouched to unlock unlimited posting."
  else if (match reply_to with
           | some rt => !(rt = "") && (store.all fun p => !(p.id = rt))
           | none => false) then
    .error 404 "not_found" "Parent post not found"
  else
    let post : PlazaPost :=
      { id := newId, author_id := publicKey, content := content.getD "",
        created_at := now }
    .created post (store ++ [post])

/-! ## `src/handlers/clawfiles.ts` (src/unnamed/part_004) -/

/-- The `clawfiles` row the registration handler inserts (part_004 lines
131-146), restricted to the inserted columns. -/
structure Clawfile where
  public_key : String
  mention_name : String
  display_name : String
  human_parent : Option String
  verification_tier : Nat
  status : String
  home_node : String
  created_at : String
deriving DecidableEq, Repr

/-- Outcome of `POST /clawfiles`: a structured error with its HTTP status
(the 500 being `internal_error` from the global error handler,
src/unnamed/part_002), or the created row and the store after the insert. -/
inductive RegResult where
  | error (status : Nat) (code message : String)
  | created (row : Clawfile) (store : List Clawfile)
deriving DecidableEq, Repr

/-- JavaScript truthiness of an optional string field:
absent and `""` are both falsy. -/
def jsTruthy : Option String → Bool
  | none => false
  | some s => s ≠ ""

/-- `/^[a-zA-Z0-9_-]+$/.test(s)` (part_004 line 102). -/
def mentionNameTest (s : String) : Bool :=
  s ≠ "" && s.data.all fun c => c.isAlphanum || c = '_' || c = '-'

/-- `app.post('/', ...)`, part_004 lines 76-172: registration.

* field checks (JS falsiness) → 400 `bad_request`;
* mention-name format and length → 400 `invalid_mention`;
* `SELECT 1 FROM clawfiles WHERE mention_name = ?` → 409 `conflict`;
* the proof signature is **never** verified — the call is commented out
  (`// TODO: Verify proof signature`, part_004 lines 125-126);
* `INSERT INTO clawfiles ...` with tier `0`, status `'active'`, home node
  `'clawish.com'`.  `public_key` is the table's PRIMARY KEY
  (migrations/0001_initial.sql line 13), so inserting a key that is already
  registered rejects at the database; the handler does not catch it, and the
  global error handler turns it into a 500 `internal_error`
  (src/unnamed/part_002 lines 4-17). -/
def createClawfile (store : List Clawfile)
    (public_key mention_name display_name human_parent : Option String)
    (proofSignature : Option String) (now : String) : RegResult :=
  if !jsTruthy public_key || !jsTruthy mention_name || !jsTruthy display_name
      || !jsTruthy proofSignature then
    .error 400 "bad_request"
      "Missing required fields: public_key, mention_name, display_name, proof.signature"
  else
    let pk := public_key.getD ""
    let mn := mention_name.getD ""
    if !mentionNameTest mn || mn.length < 2 || 32 < mn.length then
      .error 400 "invalid_mention"
        "Mention name must be 2-32 alphanumeric characters, underscores, or hyphens"
    else if store.any fun r => r.mention_name = mn then
      .error 409 "conflict" "Mention name already taken"
    else if store.any fun r => r.public_key = pk then
      .error 500 "internal_error" "An unexpected error occurred"
    else
      let row : Clawfile :=
        { public_key := pk, mention_name := mn,
          display_name := display_name.getD "",
          human_parent := if jsTruthy human_parent then human_parent else none,
          verification_tier := 0, status := "active",
          home_node := "clawish.com", created_at := now }
      .created row (store ++ [row])

/-- `app.post('/me/rotate', requireAuth, ...)`, part_004 lines 219-222: the
key-rotation endpoint.  Its entire body is
`return c.json({ error: { code: 'not_implemented', ... } }, 501)`; it reads
neither the authenticated context nor the request body and touches no
store. -/
def rotateHandler (auth : AuthContext) (body : String) : Nat × String × String :=
  (501, "not_implemented", "Key rotation not yet implemented")

/-! ## Concrete signature schemes for closed statements

The abstract `EdScheme` parameter has to be instantiated to evaluate
anything.  `toyScheme` is a genuinely *correct* scheme (`verify` accepts
exactly the output of `sign` under the matching key), so statements made
with it exercise the same algebra the real primitive provides;
`trueScheme` is the scheme whose `verify` accepts everything, useful for
reaching the post-verification stages of the middleware in closed
statements. -/

def toyScheme : EdScheme where
  getPublicKey priv := priv
  sign message priv := priv ++ message
  verify signature message publicKey := signature = publicKey ++ message

theorem toyScheme_correct : toyScheme.Correct := by
  intro message priv
  simp [toyScheme, EdScheme.Correct]

theorem toyScheme_byteBounded : toyScheme.ByteBounded := by
  constructor
  · intro priv h b hb
    exact h b hb
  · intro message priv hm hp b hb
    rcases List.mem_append.mp hb with hb | hb
    · exact hp b hb
    · exact hm b hb

def trueScheme : EdScheme where
  getPublicKey priv := priv
  sign message priv := priv ++ message
  verify _ _ _ := true

/-- `verifySignature` on a well-formed input built from byte lists: the
`"base64:ed25519"` shape parses, both base64 decodes succeed, and the
result is exactly the primitive's verdict. -/
theorem verifySignature_wellformed (S : EdScheme) (pk sig : List Nat)
    (message : String) (hpk : ∀ b ∈ pk, b < 256) (hsig : ∀ b ∈ sig, b < 256) :
    verifySignature S (btoa pk ++ ":ed25519") message (btoa sig) =
      S.verify sig (utf8Bytes message) pk := by
  unfold verifySignature
  have hdata : (btoa pk ++ ":ed25519").data =
      btoaChars pk ++ ':' :: "ed25519".data := by
    rw [String.data_append]
    rfl
  rw [hdata, splitOnChar_append_sep ':' _ _ (btoaChars_ne_colon pk)]
  have hed : splitOnChar ':' "ed25519".data = ["ed25519".data] := by decide
  rw [hed]
  dsimp only
  rw [if_pos rfl]
  rw [show String.mk (btoaChars pk) = btoa pk from rfl]
  rw [atob_btoa pk hpk, atob_btoa sig hsig]

/-! ## C1 — sign/verify round trip -/

/-- **C1, counterexample.**  The claim as stated is false on the code:
`generateKeyPair` returns the public key as bare base64 with no
`":ed25519"` algorithm tag (part_000 lines 64-67), while `verifySignature`
requires exactly that tag and fails closed without it (part_000 lines
17-20).  With a concretely correct scheme, a fresh key pair and the message
`"hello"`, signing succeeds but verification of the signature against the
generated public-key string returns `false`. -/
theorem C1_round_trip_as_stated_fails :
    EdScheme.Correct toyScheme ∧
    signMessage toyScheme (generateKeyPair toyScheme [1, 2, 3]).2 "hello" =
      some (btoa ([1, 2, 3] ++ utf8Bytes "hello")) ∧
    verifySignature toyScheme (generateKeyPair toyScheme [1, 2, 3]).1 "hello"
      (btoa ([1, 2, 3] ++ utf8Bytes "hello")) = false :=
  ⟨toyScheme_correct, by decide, by decide⟩

/-- **C1, amended.**  For any correct, byte-valued signature scheme and any
freshly generated key pair, signing round-trips through verification once
the caller appends the `":ed25519"` algorithm tag that `verifySignature`
expects to the generated public key. -/
theorem C1_round_trip_with_algorithm_tag (S : EdScheme) (priv : List Nat)
    (message : String) (hcor : S.Correct) (hbb : S.ByteBounded)
    (hpriv : ∀ b ∈ priv, b < 256) :
    ∃ sig, signMessage S (generateKeyPair S priv).2 message = some sig ∧
      verifySignature S ((generateKeyPair S priv).1 ++ ":ed25519") message sig =
        true := by
  have hpk : ∀ b ∈ S.getPublicKey priv, b < 256 := hbb.1 priv hpriv
  have hsg : ∀ b ∈ S.sign (utf8Bytes message) priv, b < 256 :=
    hbb.2 (utf8Bytes message) priv (utf8Bytes_lt message) hpriv
  refine ⟨btoa (S.sign (utf8Bytes message) priv), ?_, ?_⟩
  · unfold signMessage generateKeyPair
    rw [atob_btoa priv hpriv]
    rfl
  · show verifySignature S (btoa (S.getPublicKey priv) ++ ":ed25519") message
      (btoa (S.sign (utf8Bytes message) priv)) = true
    rw [verifySignature_wellformed S _ _ message hpk hsg]
    exact hcor (utf8Bytes message) priv

/-- **C1, witness** for the amended round trip: the hypotheses hold and the
conclusion follows at the concrete scheme `toyScheme`, private key
`[1, 2, 3]` and message `"hello"`. -/
theorem C1_round_trip_witness :
    (∀ b ∈ ([1, 2, 3] : List Nat), b < 256) ∧
    (∃ sig,
      signMessage toyScheme (generateKeyPair toyScheme [1, 2, 3]).2 "hello" =
        some sig ∧
      verifySignature toyScheme
        ((generateKeyPair toyScheme [1, 2, 3]).1 ++ ":ed25519") "hello" sig =
        true) :=
  ⟨by decide,
   C1_round_trip_with_algorithm_tag toyScheme [1, 2, 3] "hello"
     toyScheme_correct toyScheme_byteBounded (by decide)⟩

/-! ## C2 — the client-side canonical string -/

/-- **C2.**  `buildCanonicalString` (part_000 lines 78-91) does **not** put
`hex(sha256(body))` on the third line: the digest promise is never awaited,
so the template literal stringifies the pending `Promise` object and every
canonical string ends in the fixed text `"[object Promise]"` — which is not
a hex digest (a SHA-256 hex digest has 64 characters, as the server-side
byte-to-hex rendering of a 32-byte digest shows).  The server middleware
(part_001 lines 53-58) awaits the digest properly, so client-built strings
can never match server-built ones. -/
theorem C2_canonical_string_promise_bug :
    buildCanonicalString "GET" "/api/v1/plaza" "2026-02-03T04:05:06.000Z" "hello"
      = "GET /api/v1/plaza\n2026-02-03T04:05:06.000Z\n[object Promise]" ∧
    (∀ method path timestamp body : String,
      buildCanonicalString method path timestamp body =
        method ++ " " ++ path ++ "\n" ++ timestamp ++ "\n" ++ "[object Promise]") ∧
    (hexOfBytes (List.replicate 32 0)).length = 64 ∧
    hexOfBytes (List.replicate 32 0) ≠ "[object Promise]" :=
  ⟨rfl, fun _ _ _ _ => rfl, by decide, by decide⟩

/-! ## C3 — verifySignature fails closed -/

/-- **C3.**  `verifySignature` is total (its body is one `try`/`catch`
returning `false`) and returns `true` only when the public-key string
parses as `"{base64}:ed25519"`, both base64 decodes succeed, and the
underlying primitive accepts; contrapositively every malformed algorithm
tag or decode failure yields `false`, never a pass. -/
theorem C3_verify_fails_closed (S : EdScheme) (publicKey message signature : String)
    (h : verifySignature S publicKey message signature = true) :
    ∃ keyBase64 rest publicKeyBytes signatureBytes,
      splitOnChar ':' publicKey.data = keyBase64 :: "ed25519".data :: rest ∧
      atob (String.mk keyBase64) = some publicKeyBytes ∧
      atob signature = some signatureBytes ∧
      S.verify signatureBytes (utf8Bytes message) publicKeyBytes = true := by
  unfold verifySignature at h
  cases hsp : splitOnChar ':' publicKey.data with
  | nil => rw [hsp] at h; simp at h
  | cons keyBase64 t =>
      cases t with
      | nil => rw [hsp] at h; simp at h
      | cons algo rest =>
          rw [hsp] at h
          dsimp only at h
          by_cases halgo : String.mk algo = "ed25519"
          · rw [if_pos halgo] at h
            have halgo' : algo = "ed25519".data := congrArg String.data halgo
            cases h1 : atob (String.mk keyBase64) with
            | none => rw [h1] at h; simp at h
            | some publicKeyBytes =>
                cases h2 : atob signature with
                | none => rw [h1, h2] at h; simp at h
                | some signatureBytes =>
                    rw [h1, h2] at h
                    dsimp only at h
                    refine ⟨keyBase64, rest, publicKeyBytes, signatureBytes,
                      ?_, h1, rfl, h⟩
                    rw [halgo']
          · rw [if_neg halgo] at h
            simp at h

/-- **C3, witness**: a well-formed input on which `verifySignature` returns
`true`, fed through the theorem. -/
theorem C3_verify_fails_closed_witness :
    verifySignature toyScheme "AQ==:ed25519" "" "AQ==" = true ∧
    (∃ keyBase64 rest publicKeyBytes signatureBytes,
      splitOnChar ':' ("AQ==:ed25519" : String).data =
        keyBase64 :: "ed25519".data :: rest ∧
      atob (String.mk keyBase64) = some publicKeyBytes ∧
      atob "AQ==" = some signatureBytes ∧
      toyScheme.verify signatureBytes (utf8Bytes "") publicKeyBytes = true) :=
  ⟨by decide, C3_verify_fails_closed toyScheme "AQ==:ed25519" "" "AQ==" (by decide)⟩

/-! ## C6 — key rotation -/

/-- **C6.**  The rotation endpoint is an unimplemented stub: every
authenticated call, whatever the context or body, returns HTTP 501
`not_implemented` and performs no store update at all — no record ever
acquires `status = rotated` or a lineage pointer through it. -/
theorem C6_rotation_endpoint_is_stub (auth : AuthContext) (body : String) :
    rotateHandler auth body =
      (501, "not_implemented", "Key rotation not yet implemented") :=
  rfl

/-! ## C4 — the replay guard's skew boundary -/

/-- **C4.**  With all three auth headers present (and non-empty), the
middleware rejects with `timestamp_skew` exactly when
`|now - timestamp| > 60` seconds: a skew of 60 passes the guard, 61 fails,
and `Int.natAbs` makes the bound symmetric for clocks ahead and behind. -/
theorem C4_replay_guard_boundary (S : EdScheme) (hashHex : String → String)
    (required : Bool) (db : String → Option Identity) (now : Int)
    (parseTime : String → Int) (method url body pk sg ts : String)
    (hpk : pk ≠ "") (hsg : sg ≠ "") (hts : ts ≠ "") :
    (authMiddleware S hashHex required db now parseTime method url body
        (some pk) (some sg) (some ts)).code = some "timestamp_skew" ↔
      60 < (now - parseTime ts).natAbs := by
  unfold authMiddleware
  dsimp only
  rw [if_neg (by simp [hpk, hsg, hts])]
  by_cases hskew : 60 < (now - parseTime ts).natAbs
  · rw [if_pos hskew]
    simpa [MwResult.code] using hskew
  · rw [if_neg hskew]
    constructor
    · intro hc
      exfalso
      by_cases hv : verifySignature S pk (canonicalOf hashHex method url ts body) sg
      · rw [if_pos hv] at hc
        cases hdb : db pk with
        | none => rw [hdb] at hc; simp [MwResult.code] at hc
        | some idt =>
            rw [hdb] at hc
            dsimp only at hc
            by_cases hst : idt.status ≠ "active"
            · rw [if_pos hst] at hc; simp [MwResult.code] at hc
            · rw [if_neg hst] at hc; simp [MwResult.code] at hc
      · rw [if_neg hv] at hc
        simp [MwResult.code] at hc
    · intro h60
      exact absurd h60 hskew

/-- **C4, witness**: at `now = 161` and a timestamp parsing to `100` the
skew is 61 and the concrete middleware run rejects with `timestamp_skew`;
the boundary instance follows by applying the theorem. -/
theorem C4_replay_guard_boundary_witness :
    (("p" : String) ≠ "" ∧ ("s" : String) ≠ "" ∧ ("T" : String) ≠ "") ∧
    ((authMiddleware toyScheme (fun _ => "") true (fun _ => none) 161
        (fun _ => 100) "GET" "u" "" (some "p") (some "s") (some "T")).code =
      some "timestamp_skew" ↔ 60 < ((161 : Int) - 100).natAbs) :=
  ⟨⟨by decide, by decide, by decide⟩,
   C4_replay_guard_boundary toyScheme (fun _ => "") true (fun _ => none) 161
     (fun _ => 100) "GET" "u" "" "p" "s" "T" (by decide) (by decide) (by decide)⟩

/-! ## C5 — identity resolution after a verified signature -/

/-- **C5.**  Once the headers are present, the skew check passes and the
signature verifies, the middleware resolves the presented public key:
no record → 401 `unknown_identity`; a record whose status is anything but
`"active"` (so `rotated`, `suspended`, `archived`) → 401
`inactive_identity`; an `"active"` record → proceed with a context carrying
the key and the selected snapshot (`mention_name`, `display_name`,
`verification_tier`, `status`). -/
theorem C5_identity_resolution (S : EdScheme) (hashHex : String → String)
    (required : Bool) (db : String → Option Identity) (now : Int)
    (parseTime : String → Int) (method url body pk sg ts : String)
    (hpk : pk ≠ "") (hsg : sg ≠ "") (hts : ts ≠ "")
    (hskew : ¬ 60 < (now - parseTime ts).natAbs)
    (hver : verifySignature S pk (canonicalOf hashHex method url ts body) sg =
      true) :
    (db pk = none →
      authMiddleware S hashHex required db now parseTime method url body
          (some pk) (some sg) (some ts) =
        .reject 401 "unknown_identity" "Public key not registered") ∧
    (∀ idt, db pk = some idt → idt.status ≠ "active" →
      authMiddleware S hashHex required db now parseTime method url body
          (some pk) (some sg) (some ts) =
        .reject 401 "inactive_identity" ("Identity status: " ++ idt.status)) ∧
    (∀ idt, db pk = some idt → idt.status = "active" →
      authMiddleware S hashHex required db now parseTime method url body
          (some pk) (some sg) (some ts) =
        .proceed (some { publicKey := pk, identity := idt })) := by
  unfold authMiddleware
  dsimp only
  rw [if_neg (by simp [hpk, hsg, hts]), if_neg hskew, if_pos hver]
  refine ⟨fun hdb => ?_, fun idt hdb hst => ?_, fun idt hdb hst => ?_⟩
  · rw [hdb]
  · rw [hdb]
    dsimp only
    rw [if_pos hst]
  · rw [hdb]
    dsimp only
    rw [if_neg (by simp [hst])]

/-- A concrete identity record and lookup for closed middleware statements. -/
def alphaIdentity : Identity :=
  { mention_name := "alpha", display_name := "Alpha",
    verification_tier := 1, status := "active" }

def alphaDb : String → Option Identity :=
  fun k => if k = "AQ==:ed25519" then some alphaIdentity else none

/-- **C5, witness**: every hypothesis holds at a concrete request whose
signature verifies, and the success branch of the theorem produces the
attached context for the active identity stored under `"AQ==:ed25519"`. -/
theorem C5_identity_resolution_witness :
    (("AQ==:ed25519" : String) ≠ "" ∧ ("AA==" : String) ≠ "" ∧
      ("2026-02-03T04:05:06.000Z" : String) ≠ "" ∧
      ¬ 60 < ((0 : Int) - 0).natAbs ∧
      verifySignature trueScheme "AQ==:ed25519"
        (canonicalOf (fun _ => "h") "GET" "https://clawish.com/api/v1/plaza"
          "2026-02-03T04:05:06.000Z" "") "AA==" = true) ∧
    (alphaDb "AQ==:ed25519" = some alphaIdentity →
      alphaIdentity.status = "active" →
      authMiddleware trueScheme (fun _ => "h") true alphaDb 0 (fun _ => 0)
          "GET" "https://clawish.com/api/v1/plaza" "" (some "AQ==:ed25519")
          (some "AA==") (some "2026-02-03T04:05:06.000Z") =
        .proceed (some { publicKey := "AQ==:ed25519",
                         identity := alphaIdentity })) :=
  ⟨⟨by decide, by decide, by decide, by decide, by decide⟩,
   (C5_identity_resolution trueScheme (fun _ => "h") true alphaDb 0
      (fun _ => 0) "GET" "https://clawish.com/api/v1/plaza" ""
      "AQ==:ed25519" "AA==" "2026-02-03T04:05:06.000Z"
      (by decide) (by decide) (by decide) (by decide) (by decide)).2.2
     alphaIdentity⟩

/-! ## C8 — optional-auth mode -/

/-- **C8.**  In optional mode (`required = false`): a request with none of
the three auth headers proceeds with no identity context attached; a
request presenting all three (non-empty) headers takes exactly the same
all-or-nothing pipeline as required mode, and its outcome is either a full
success (`proceed` with a context) or a 401 rejection. -/
theorem C8_optional_auth_all_or_nothing (S : EdScheme) (hashHex : String → String)
    (db : String → Option Identity) (now : Int) (parseTime : String → Int)
    (method url body : String) :
    optionalAuth S hashHex db now parseTime method url body none none none =
      MwResult.proceed none ∧
    ∀ pk sg ts : String, pk ≠ "" → sg ≠ "" → ts ≠ "" →
      (optionalAuth S hashHex db now parseTime method url body
          (some pk) (some sg) (some ts) =
        requireAuth S hashHex db now parseTime method url body
          (some pk) (some sg) (some ts)) ∧
      ((∃ ctx, optionalAuth S hashHex db now parseTime method url body
          (some pk) (some sg) (some ts) = MwResult.proceed (some ctx)) ∨
       (∃ code msg, optionalAuth S hashHex db now parseTime method url body
          (some pk) (some sg) (some ts) = MwResult.reject 401 code msg)) := by
  refine ⟨rfl, fun pk sg ts hpk hsg hts => ?_⟩
  have hcond : ¬ (pk = "" ∨ sg = "" ∨ ts = "") := by simp [hpk, hsg, hts]
  constructor
  · unfold optionalAuth requireAuth authMiddleware
    dsimp only
    simp only [if_neg hcond]
  · unfold optionalAuth authMiddleware
    dsimp only
    rw [if_neg hcond]
    by_cases hskew : 60 < (now - parseTime ts).natAbs
    · rw [if_pos hskew]
      right
      exact ⟨_, _, rfl⟩
    · rw [if_neg hskew]
      by_cases hv : verifySignature S pk (canonicalOf hashHex method url ts body) sg
      · rw [if_pos hv]
        cases hdb : db pk with
        | none => right; exact ⟨_, _, rfl⟩
        | some idt =>
            dsimp only
            by_cases hst : idt.status ≠ "active"
            · rw [if_pos hst]
              right
              exact ⟨_, _, rfl⟩
            · rw [if_neg hst]
              left
              exact ⟨_, rfl⟩
      · rw [if_neg hv]
        right
        exact ⟨_, _, rfl⟩

/-! ## C7 — the tier-0 posting rate limit -/

theorem postCountToday_append (l1 l2 : List PlazaPost) (a t : String) :
    postCountToday (l1 ++ l2) a t =
      postCountToday l1 a t + postCountToday l2 a t := by
  unfold postCountToday
  rw [List.filter_append, List.length_append]

theorem postCountToday_singleton (p : PlazaPost) (a t : String) :
    postCountToday [p] a t =
      if p.author_id = a ∧ dayOf p.created_at = t then 1 else 0 := by
  unfold postCountToday
  by_cases h : p.author_id = a ∧ dayOf p.created_at = t <;> simp [h]

/-- **C7.**  For a tier-0 identity with no post yet on the UTC calendar day
of `now1`: the first post is created; any further attempt whose timestamp
falls on the *same* calendar day (`dayOf now2 = dayOf now1`) — however far
apart in time — is rejected with 429 `rate_limited` and the parent-vouch
remedy message; an attempt on a different calendar day with no prior post
that day is created (even less than 24 hours later); and a non-zero tier is
never rejected with `rate_limited` at all.  The window is the calendar day
(`date(created_at)` against `toISOString().split('T')[0]`), not a rolling
24 hours. -/
theorem C7_tier0_rate_limit (store : List PlazaPost)
    (pk c1 c2 c3 id1 id2 id3 now1 now2 now3 : String)
    (hc1 : c1 ≠ "" ∧ c1.length ≤ 5000)
    (hc2 : c2 ≠ "" ∧ c2.length ≤ 5000)
    (hc3 : c3 ≠ "" ∧ c3.length ≤ 5000)
    (h0 : postCountToday store pk (dayOf now1) = 0)
    (hsame : dayOf now2 = dayOf now1)
    (hnext : dayOf now3 ≠ dayOf now1)
    (h3 : postCountToday store pk (dayOf now3) = 0) :
    plazaPost store 0 pk (some c1) none id1 now1 =
      .created { id := id1, author_id := pk, content := c1, created_at := now1 }
        (store ++
          [{ id := id1, author_id := pk, content := c1, created_at := now1 }]) ∧
    plazaPost
        (store ++
          [{ id := id1, author_id := pk, content := c1, created_at := now1 }])
        0 pk (some c2) none id2 now2 =
      .error 429 "rate_limited"
        "Tier 0 users limited to 1 post per day. Get parent-vouched to unlock unlimited posting." ∧
    plazaPost
        (store ++
          [{ id := id1, author_id := pk, content := c1, created_at := now1 }])
        0 pk (some c3) none id3 now3 =
      .created { id := id3, author_id := pk, content := c3, created_at := now3 }
        (store ++
          [{ id := id1, author_id := pk, content := c1, created_at := now1 }] ++
          [{ id := id3, author_id := pk, content := c3, created_at := now3 }]) ∧
    (∀ (tier : Nat) (st : List PlazaPost) (content reply_to : Option String)
        (nid n m : String), tier ≠ 0 →
      plazaPost st tier pk content reply_to nid n ≠ .error 429 "rate_limited" m) := by
  have hng : ∀ c : String, c ≠ "" → c.length ≤ 5000 →
      ¬ (some c = none ∨ some c = some "" ∨ 5000 < ((some c).getD "").length) := by
    intro c hne hlen
    simp [hne]
    omega
  refine ⟨?_, ?_, ?_, ?_⟩
  · unfold plazaPost
    rw [if_neg (hng c1 hc1.1 hc1.2)]
    rw [if_neg (by simp [h0])]
    rfl
  · have hcount : 1 ≤ postCountToday
        (store ++
          [{ id := id1, author_id := pk, content := c1, created_at := now1 }])
        pk (dayOf now2) := by
      rw [postCountToday_append, postCountToday_singleton]
      rw [if_pos ⟨rfl, hsame.symm⟩]
      omega
    unfold plazaPost
    rw [if_neg (hng c2 hc2.1 hc2.2)]
    rw [if_pos ⟨rfl, hcount⟩]
  · have hcount : postCountToday
        (store ++
          [{ id := id1, author_id := pk, content := c1, created_at := now1 }])
        pk (dayOf now3) = 0 := by
      rw [postCountToday_append, postCountToday_singleton, h3]
      rw [if_neg fun hand => hnext hand.2.symm]
    unfold plazaPost
    rw [if_neg (hng c3 hc3.1 hc3.2)]
    rw [if_neg (by simp [hcount])]
    rfl
  · intro tier st content reply_to nid n m htier
    unfold plazaPost
    split_ifs with h1 h2 h3
    · simp
    · exact absurd h2.1 htier
    · simp
    · simp

/-- **C7, witness**: an empty store, a tier-0 author `"k"`, a first post at
23:50 UTC, a second attempt earlier the same calendar day (rejected 429),
and a third 20 minutes after the first — the next calendar day — which is
allowed: the window is the calendar day, not 24 hours. -/
theorem C7_tier0_rate_limit_witness :
    postCountToday [] "k" (dayOf "2026-02-03T23:50:00.000Z") = 0 ∧
    dayOf "2026-02-03T00:05:00.000Z" = dayOf "2026-02-03T23:50:00.000Z" ∧
    dayOf "2026-02-04T00:10:00.000Z" ≠ dayOf "2026-02-03T23:50:00.000Z" ∧
    plazaPost
        [{ id := "i1", author_id := "k", content := "hi",
           created_at := "2026-02-03T23:50:00.000Z" }]
        0 "k" (some "hi") none "i2" "2026-02-03T00:05:00.000Z" =
      .error 429 "rate_limited"
        "Tier 0 users limited to 1 post per day. Get parent-vouched to unlock unlimited posting." ∧
    plazaPost
        [{ id := "i1", author_id := "k", content := "hi",
           created_at := "2026-02-03T23:50:00.000Z" }]
        0 "k" (some "hi") none "i3" "2026-02-04T00:10:00.000Z" =
      .created
        { id := "i3", author_id := "k", content := "hi",
          created_at := "2026-02-04T00:10:00.000Z" }
        ([{ id := "i1", author_id := "k", content := "hi",
            created_at := "2026-02-03T23:50:00.000Z" }] ++
          [{ id := "i3", author_id := "k", content := "hi",
             created_at := "2026-02-04T00:10:00.000Z" }]) :=
  have h := C7_tier0_rate_limit [] "k" "hi" "hi" "hi" "i1" "i2" "i3"
    "2026-02-03T23:50:00.000Z" "2026-02-03T00:05:00.000Z"
    "2026-02-04T00:10:00.000Z"
    ⟨by decide, by decide⟩ ⟨by decide, by decide⟩ ⟨by decide, by decide⟩
    (by decide) (by decide) (by decide) (by decide)
  ⟨by decide, by decide, by decide, h.2.1, h.2.2.1⟩

/-! ## C9 — the query string in the server-side canonical string -/

/-- What `extractPath` does to a plaza URL carrying an arbitrary suffix `q`
(such as a query string): the origin before the first `"/api"` is stripped
and everything else — `q` included — is kept. -/
theorem extractPath_plaza_query (q : String) :
    extractPath (String.mk ("https://clawish.com/api/v1/plaza".data ++ q.data)) =
      String.mk ("/api/v1/plaza".data ++ q.data) := by
  have h1 : listIndexOf "/api".data
      ("https://clawish.com/api/v1/plaza".data ++ q.data) = some 19 := by
    simp [listIndexOf, List.isPrefixOf]
  have h3 : listIndexOf "https://clawish.com".data
      ("https://clawish.com/api/v1/plaza".data ++ q.data) = some 0 := by
    simp [listIndexOf, List.isPrefixOf]
  unfold extractPath beforeFirst jsReplaceFirst
  rw [show (String.mk ("https://clawish.com/api/v1/plaza".data ++ q.data)).data =
    "https://clawish.com/api/v1/plaza".data ++ q.data from rfl]
  rw [h1]
  dsimp only
  rw [List.take_append_of_le_length (by decide)]
  rw [show List.take 19 "https://clawish.com/api/v1/plaza".data =
    "https://clawish.com".data from by decide]
  rw [h3]
  dsimp only
  rw [List.take_zero, List.nil_append]
  rw [show (0 + ("https://clawish.com".data).length) = 19 from by decide]
  rw [List.drop_append_of_le_length (by decide)]
  rw [show List.drop 19 "https://clawish.com/api/v1/plaza".data =
    "/api/v1/plaza".data from by decide]

/-- **C9, counterexample.**  The claim is false on the code: the middleware
derives the signed path with
`c.req.url.replace(c.req.url.split('/api')[0], '')`, which keeps the query
string, so two request URLs differing only in their query string produce
*different* server-side canonical strings. -/
theorem C9_query_excluded_counterexample :
    extractPath "https://clawish.com/api/v1/plaza?limit=5" =
      "/api/v1/plaza?limit=5" ∧
    canonicalOf (fun _ => "") "GET" "https://clawish.com/api/v1/plaza?limit=5"
        "2026-02-03T04:05:06.000Z" "" ≠
      canonicalOf (fun _ => "") "GET" "https://clawish.com/api/v1/plaza"
        "2026-02-03T04:05:06.000Z" "" := by
  constructor
  · decide
  · decide

/-- **C9, amended.**  The server-side canonical string is built over the
request URL stripped of everything before its first `"/api"`, with the
query string *included*: appending different suffixes (query strings) to
the same plaza path always yields different canonical strings, whatever
the digest function, method, timestamp and body. -/
theorem C9_canonical_includes_query (hashHex : String → String)
    (method timestamp body : String) (q1 q2 : String) (hq : q1 ≠ q2) :
    canonicalOf hashHex method
        (String.mk ("https://clawish.com/api/v1/plaza".data ++ q1.data))
        timestamp body ≠
      canonicalOf hashHex method
        (String.mk ("https://clawish.com/api/v1/plaza".data ++ q2.data))
        timestamp body := by
  intro he
  unfold canonicalOf at he
  rw [extractPath_plaza_query q1, extractPath_plaza_query q2] at he
  have hd := congrArg String.data he
  simp only [String.data_append, List.append_assoc] at hd
  have h4 := List.append_cancel_left hd
  have h5 := List.append_cancel_left h4
  have h6 := List.append_cancel_left h5
  have h7 := List.append_cancel_right h6
  exact hq (by cases q1; cases q2; exact congrArg String.mk h7)

/-- **C9, witness** for the amended statement: the query `"?limit=5"`
against the empty query at a concrete digest function, method, timestamp
and body. -/
theorem C9_canonical_includes_query_witness :
    ("?limit=5" : String) ≠ "" ∧
    canonicalOf (fun _ => "h") "GET"
        (String.mk ("https://clawish.com/api/v1/plaza".data ++
          ("?limit=5" : String).data))
        "2026-02-03T04:05:06.000Z" "" ≠
      canonicalOf (fun _ => "h") "GET"
        (String.mk ("https://clawish.com/api/v1/plaza".data ++
          ("" : String).data))
        "2026-02-03T04:05:06.000Z" "" :=
  ⟨by decide,
   C9_canonical_includes_query (fun _ => "h") "GET" "2026-02-03T04:05:06.000Z"
     "" "?limit=5" "" (by decide)⟩

/-! ## C10 — registration never verifies the proof signature -/

/-- A registered clawfile used in closed registration statements. -/
def keyARow : Clawfile :=
  { public_key := "KEYA:ed25519", mention_name := "alpha",
    display_name := "Alpha", human_parent := none, verification_tier := 0,
    status := "active", home_node := "clawish.com",
    created_at := "2026-02-01T00:00:00.000Z" }

/-- **C10, counterexample.**  As stated the claim is false in one corner:
the handler checks only `mention_name` uniqueness, so a request that
re-registers an *already registered public key* under a fresh, valid
mention name reaches the `INSERT` and violates the `public_key PRIMARY KEY`
constraint — it ends as a 500 `internal_error`, not as a created
identity. -/
theorem C10_registration_as_stated_fails :
    createClawfile [keyARow] (some "KEYA:ed25519") (some "beta") (some "Beta")
        none (some "garbage-proof") "2026-02-03T00:00:00.000Z" =
      .error 500 "internal_error" "An unexpected error occurred" := by
  decide

/-- **C10, amended.**  For every registration request whose required fields
are present (JS-truthy), whose mention name is valid (regex and 2-32
length) and unused, and whose public key is not yet registered, the
identity is created with `verification_tier = 0`, `status = "active"` and
`home_node = "clawish.com"` — for *every* non-empty `proof.signature`
string, which is never cryptographically verified (the check is a `TODO`
comment, part_004 lines 125-126). -/
theorem C10_registration_ignores_proof (store : List Clawfile)
    (pk mn dn : String) (hp : Option String) (psig : String) (now : String)
    (hpk : pk ≠ "") (hdn : dn ≠ "") (hps : psig ≠ "")
    (hre : mentionNameTest mn = true) (hl2 : 2 ≤ mn.length)
    (hl32 : mn.length ≤ 32)
    (hmn : ∀ r ∈ store, r.mention_name ≠ mn)
    (hpkf : ∀ r ∈ store, r.public_key ≠ pk) :
    createClawfile store (some pk) (some mn) (some dn) hp (some psig) now =
      .created
        { public_key := pk, mention_name := mn, display_name := dn,
          human_parent := if jsTruthy hp then hp else none,
          verification_tier := 0, status := "active",
          home_node := "clawish.com", created_at := now }
        (store ++
          [{ public_key := pk, mention_name := mn, display_name := dn,
             human_parent := if jsTruthy hp then hp else none,
             verification_tier := 0, status := "active",
             home_node := "clawish.com", created_at := now }]) := by
  have hmn0 : mn ≠ "" := by
    rintro rfl
    simp at hl2
  unfold createClawfile
  rw [if_neg (by simp [jsTruthy, hpk, hdn, hps, hmn0])]
  dsimp only
  rw [if_neg (by simp [hre]; omega)]
  rw [if_neg (by simp; exact hmn)]
  rw [if_neg (by simp; exact hpkf)]
  rfl

/-- **C10, witness**: registering a fresh key `"KEYB:ed25519"` under the
unused mention `"beta"` with the junk proof string `"garbage-proof"`
succeeds as tier 0, active. -/
theorem C10_registration_ignores_proof_witness :
    (("KEYB:ed25519" : String) ≠ "" ∧ ("Beta" : String) ≠ "" ∧
      ("garbage-proof" : String) ≠ "" ∧ mentionNameTest "beta" = true ∧
      2 ≤ ("beta" : String).length ∧ ("beta" : String).length ≤ 32 ∧
      (∀ r ∈ [keyARow], r.mention_name ≠ "beta") ∧
      (∀ r ∈ [keyARow], r.public_key ≠ "KEYB:ed25519")) ∧
    createClawfile [keyARow] (some "KEYB:ed25519") (some "beta") (some "Beta")
        none (some "garbage-proof") "2026-02-03T00:00:00.000Z" =
      .created
        { public_key := "KEYB:ed25519", mention_name := "beta",
          display_name := "Beta",
          human_parent := if jsTruthy none then none else none,
          verification_tier := 0, status := "active",
          home_node := "clawish.com",
          created_at := "2026-02-03T00:00:00.000Z" }
        ([keyARow] ++
          [{ public_key := "KEYB:ed25519", mention_name := "beta",
             display_name := "Beta",
             human_parent := if jsTruthy none then none else none,
             verification_tier := 0, status := "active",
             home_node := "clawish.com",
             created_at := "2026-02-03T00:00:00.000Z" }]) :=
  ⟨⟨by decide, by decide, by decide, by decide, by decide, by decide,
    by decide, by decide⟩,
   C10_registration_ignores_proof [keyARow] "KEYB:ed25519" "beta" "Beta" none
     "garbage-proof" "2026-02-03T00:00:00.000Z" (by decide) (by decide)
     (by decide) (by decide) (by decide) (by decide) (by decide) (by decide)⟩

end Clawish
